import Mathlib

/-!
Shallow embedding of the wewe-rss update-automation workflow of this
repository (`crawler/wewe-rss.py` and `rss/wewe-rss.py`).

String-processing functions of the Python source (`str.strip()`,
`str.split(sep)`, `str.split(sep, 1)`, `in`) are embedded as structural
recursions over `List Char`, with `String` kept at the boundary via
`String.data` / `String.mk`, so that every definition evaluates inside the
kernel.  Selenium interactions are embedded as explicit environments: each
environment field records the outcome the automation channel would give to
one primitive interaction (a wait, a click, an attribute read), and the
embedded function computes the value the Python function returns together
with a trace of the externally visible actions it performs.
-/

namespace AutoScripts

/-- Python `str.strip()`: drop whitespace from both ends of a character list. -/
def trimChars (l : List Char) : List Char :=
  ((l.dropWhile Char.isWhitespace).reverse.dropWhile Char.isWhitespace).reverse

/-- Python `s.split(c)` for a one-character separator `c`: split into the
(possibly empty) segments between occurrences of `c`; always returns at least
one segment. -/
def splitOnChar (c : Char) : List Char → List (List Char)
  | [] => [[]]
  | x :: xs =>
    let rest := splitOnChar c xs
    if x = c then [] :: rest
    else (x :: rest.headD []) :: rest.tail

/-- Python `pair.split('=', 1)`: the part before the first `'='` and the part
after it (the second component keeps any further `'='` characters). -/
def splitFirstEq : List Char → List Char × List Char
  | [] => ([], [])
  | x :: xs =>
    if x = '=' then ([], xs)
    else
      let r := splitFirstEq xs
      (x :: r.1, r.2)

/-- Body of the per-pair loop of `load_cookies_from_file`
(`crawler/wewe-rss.py:155-169`): strip the pair, skip it when empty, skip it
(with a warning) when it contains no `'='`, otherwise split on the first `'='`
and strip key and value. -/
def pairToCookie (raw : List Char) : Option (String × String) :=
  let pair := trimChars raw
  if pair.isEmpty then none
  else if !(pair.contains '=') then none
  else
    let kv := splitFirstEq pair
    some (String.mk (trimChars kv.1), String.mk (trimChars kv.2))

/-- `load_cookies_from_file` (`crawler/wewe-rss.py:117-176`), as a function of
the cookie file's text content: strip the whole content, return `[]` when it
is empty, otherwise split on `';'` and keep the pairs that parse.  Each parsed
cookie is a `(name, value)` pair. -/
def load_cookies_from_file (content : String) : List (String × String) :=
  let c := trimChars content.data
  if c.isEmpty then []
  else (splitOnChar ';' c).filterMap pairToCookie

/-- Domain normalization of `set_cookies_from_file`
(`crawler/wewe-rss.py:215-217`): Selenium cookie domains cannot carry a port,
so when the domain contains `':'` only the part before the first `':'`
(Python `domain.split(':')[0]`) is kept. -/
def normalizeDomain (domain : String) : String :=
  if domain.data.contains ':' then String.mk ((splitOnChar ':' domain.data).headD [])
  else domain

/-- The result of Python's `urlparse` on the driver's current URL, as
`set_cookies_from_file` consumes it: the full URL string, its scheme and its
netloc (host, possibly with a port). -/
structure UrlParts where
  full : String
  scheme : String
  netloc : String
deriving Repr, DecidableEq

/-- An externally visible action `set_cookies_from_file` performs on the
browser: a navigation (`driver.get`) or one `driver.add_cookie` attempt with
the exact dictionary fields the code builds (`name`, `value`, `domain`,
`path`). -/
inductive CookieAction where
  | navigate (url : String)
  | addCookie (name value domain path : String)
deriving Repr, DecidableEq

/-- Environment for one call of `set_cookies_from_file`: whether the cookie
file exists, its content, the parsed current URL, the optional explicit
`domain` argument, and the outcomes the browser gives to the base-page load,
each `add_cookie` call (by position) and the final return navigation.  A
failed load stands for the `TimeoutException`/`WebDriverException` the
corresponding wait would raise, which the function catches and turns into
`False`. -/
structure SetCookieEnv where
  fileExists : Bool
  fileContent : String
  currentUrl : UrlParts
  domainArg : Option String
  baseLoadOk : Bool
  addCookieOk : Nat → Bool
  backLoadOk : Bool

/-- The cookie domain `set_cookies_from_file` applies to every cookie: the
explicit argument when given, otherwise the current URL's netloc, normalized
by `normalizeDomain`. -/
def appliedDomain (env : SetCookieEnv) : String :=
  normalizeDomain (env.domainArg.getD env.currentUrl.netloc)

/-- The `failed_count` tallied by the per-cookie loop of
`set_cookies_from_file` (`crawler/wewe-rss.py:235-253`): the number of
positions of the parsed cookie list whose `add_cookie` call fails. -/
def failedCookieCount (env : SetCookieEnv) : Nat :=
  ((List.range (load_cookies_from_file env.fileContent).length).filter
    (fun i => !(env.addCookieOk i))).length

/-- `set_cookies_from_file` (`crawler/wewe-rss.py:179-278`): returns the
boolean result of the Python function together with the trace of browser
actions it performed.  A missing file raises `FileNotFoundError`, caught into
`(false, [])`; a parse to zero cookies returns `False` before any navigation;
otherwise it navigates to the bare origin, attempts every cookie with the same
normalized domain and path `"/"`, navigates back, and returns `True` exactly
when the per-cookie failure count is zero. -/
def set_cookies_from_file (env : SetCookieEnv) : Bool × List CookieAction :=
  if !env.fileExists then (false, [])
  else
    let cookies := load_cookies_from_file env.fileContent
    if cookies.isEmpty then (false, [])
    else
      let domain := appliedDomain env
      let baseUrl := env.currentUrl.scheme ++ "://" ++ env.currentUrl.netloc
      if !env.baseLoadOk then (false, [CookieAction.navigate baseUrl])
      else
        let adds := cookies.map (fun kv => CookieAction.addCookie kv.1 kv.2 domain "/")
        if !env.backLoadOk then
          (false, CookieAction.navigate baseUrl :: (adds ++ [CookieAction.navigate env.currentUrl.full]))
        else
          (failedCookieCount env == 0,
            CookieAction.navigate baseUrl :: (adds ++ [CookieAction.navigate env.currentUrl.full]))

/-- One rendered entry (`a[role="option"]`) of the left feed list as the
automation channel exposes it: whether the nested
`span[data-label="true"]` can be found (`find_element` raises
`NoSuchElementException`, a `WebDriverException`, when it cannot), the span's
`.text` (`none` when the DOM reports no text), and the `href` and `data-key`
attributes (`none` when absent, Python `get_attribute` returning `None`). -/
structure RawElement where
  titleSpanFound : Bool
  titleText : Option String
  href : Option String
  dataKey : Option String
deriving Repr, DecidableEq

/-- The `FeedItem` dataclass (`crawler/wewe-rss.py:31-37`). -/
structure FeedItem where
  title : String
  href : String
  data_key : String
deriving Repr, DecidableEq

/-- Title extraction `(title_span.text or "").strip()` once the span was
found. -/
def extractedTitle (e : RawElement) : String :=
  String.mk (trimChars (e.titleText.getD "").data)

/-- The `FeedItem` built for one entry by `read_left_feed_list`
(`crawler/wewe-rss.py:409-422`), assuming the title span was found. -/
def mkFeedItem (e : RawElement) : FeedItem :=
  { title := extractedTitle e
    href := e.href.getD ""
    data_key := e.dataKey.getD "" }

/-- Outcome of one `wait.until(EC.presence_of_all_elements_located(...))` on
the feed-list locator: a `TimeoutException`, some other `WebDriverException`,
or the current list of rendered entries. -/
inductive ListingFetch where
  | timeout
  | wdErr
  | elements (es : List RawElement)
deriving Repr, DecidableEq

/-- What a call of `read_left_feed_list` produces: a returned listing, or a
propagated `WebDriverException` (the `except WebDriverException: ... raise`
branch at `crawler/wewe-rss.py:441-443`). -/
inductive ListResult where
  | items (l : List FeedItem)
  | raised
deriving Repr, DecidableEq

/-- The per-element loop of `read_left_feed_list`
(`crawler/wewe-rss.py:409-422`): each entry's title span is looked up with a
bare `find_element`; a missing span raises `NoSuchElementException`, which the
function's `except WebDriverException` handler re-raises. -/
def readElementsLoop : List RawElement → List FeedItem → ListResult
  | [], acc => ListResult.items acc.reverse
  | e :: es, acc =>
    if e.titleSpanFound then readElementsLoop es (mkFeedItem e :: acc)
    else ListResult.raised

/-- `read_left_feed_list` (`crawler/wewe-rss.py:381-443`) as a function of the
outcome of its presence wait: a timeout returns the empty listing, any other
`WebDriverException` propagates, and otherwise each located entry is parsed in
order by `readElementsLoop`. -/
def read_left_feed_list (fetch : ListingFetch) : ListResult :=
  match fetch with
  | ListingFetch.timeout => ListResult.items []
  | ListingFetch.wdErr => ListResult.raised
  | ListingFetch.elements es => readElementsLoop es []

/-- Outcome the automation channel gives to one blocking wait (or the click it
guards): success, a `TimeoutException`, or another `WebDriverException`. -/
inductive WaitResult where
  | ok
  | timeout
  | wdErr
deriving Repr, DecidableEq

/-- Environment for one call of `click_update_link_and_wait`
(`crawler/wewe-rss.py:446-500`): the outcome of locating/scrolling/clicking
the idle "update now" link, of the wait for the busy-state label, and of the
wait for the label to return to idle. -/
structure UpdateEnv where
  clickIdle : WaitResult
  waitBusy : WaitResult
  waitIdleAgain : WaitResult
deriving Repr, DecidableEq

/-- `click_update_link_and_wait`: the three steps run in order inside one
`try`; a `TimeoutException` returns `False` (line 495-497) and a
`WebDriverException` also returns `False` (line 498-500) — neither
propagates — and `True` is returned only when all three steps succeed. -/
def click_update_link_and_wait (u : UpdateEnv) : Bool :=
  match u.clickIdle with
  | WaitResult.timeout => false
  | WaitResult.wdErr => false
  | WaitResult.ok =>
    match u.waitBusy with
    | WaitResult.timeout => false
    | WaitResult.wdErr => false
    | WaitResult.ok =>
      match u.waitIdleAgain with
      | WaitResult.timeout => false
      | WaitResult.wdErr => false
      | WaitResult.ok => true

/-- Outcome of the scroll / wait-clickable / click sequence for the selected
entry inside `click_all_feed_items` (`crawler/wewe-rss.py:583-589`): either an
exception (`isTimeoutExc = true` for `TimeoutException`, `false` for another
`WebDriverException`), or a successful click followed by the
`click_update_link_and_wait` flow with its own environment. -/
inductive ClickStep where
  | exc (isTimeoutExc : Bool)
  | clicked (u : UpdateEnv)
deriving Repr, DecidableEq

/-- Environment for the per-item loop of `click_all_feed_items`: per iteration
index, the outcome of the re-fetch of the current listing, whether the
`get_attribute("data-key")` read raises a `WebDriverException` (a stale
element), and the outcome of the selection/update steps when they are
reached. -/
structure ClickEnv where
  refetch : Nat → ListingFetch
  attrExc : Nat → Bool
  step : Nat → ClickStep

/-- How one iteration of the loop of `click_all_feed_items` ends. -/
inductive ItemResult where
  | haltedShrink
  | fetchTimeout
  | fetchWdErr
  | skipped
  | timeoutExc
  | webdriverExc
  | updateFailed
  | succeeded
deriving Repr, DecidableEq

/-- The title text computed at `crawler/wewe-rss.py:556-562`: the nested span
lookup is wrapped in its own `try`, so a missing span yields `""` instead of
raising. -/
def itemTitle (e : RawElement) : String :=
  if e.titleSpanFound then extractedTitle e else ""

/-- One iteration of the loop body of `click_all_feed_items`
(`crawler/wewe-rss.py:543-605`): re-fetch the listing (a raised
`TimeoutException` or `WebDriverException` is caught by the iteration's
handlers); break when the index is out of bounds of the re-fetched listing;
read title and `data-key`; skip index 0 and the sentinel title `"全部"`;
otherwise scroll/click the entry and run one update cycle, whose boolean
decides whether `clicked` is incremented. -/
def stepAt (env : ClickEnv) (index : Nat) : ItemResult :=
  match env.refetch index with
  | ListingFetch.timeout => ItemResult.fetchTimeout
  | ListingFetch.wdErr => ItemResult.fetchWdErr
  | ListingFetch.elements items =>
    if h : items.length ≤ index then ItemResult.haltedShrink
    else
      let e := items.get ⟨index, by omega⟩
      if env.attrExc index then ItemResult.webdriverExc
      else if index = 0 ∨ itemTitle e = "全部" then ItemResult.skipped
      else
        match env.step index with
        | ClickStep.exc true => ItemResult.timeoutExc
        | ClickStep.exc false => ItemResult.webdriverExc
        | ClickStep.clicked u =>
          if click_update_link_and_wait u then ItemResult.succeeded
          else ItemResult.updateFailed

/-- The `for index in range(total)` loop of `click_all_feed_items`, recorded
as the list of `(index, result)` pairs of the iterations that actually ran:
starting at `index` with `remaining` iterations left, a `haltedShrink` result
executes the `break` (no later index runs), every other result falls through
to the next index. -/
def runLoop (env : ClickEnv) : Nat → Nat → List (Nat × ItemResult)
  | _, 0 => []
  | index, Nat.succ remaining =>
    let r := stepAt env index
    if r = ItemResult.haltedShrink then [(index, r)]
    else (index, r) :: runLoop env (index + 1) remaining

/-- The `clicked` counter returned by `click_all_feed_items`: it is
incremented exactly on the iterations whose update cycle succeeded. -/
def clickedCount (tr : List (Nat × ItemResult)) : Nat :=
  (tr.filter (fun p => p.2 = ItemResult.succeeded)).length

/-- What a call of `click_all_feed_items` produces: a propagated
`WebDriverException` (possible only from the initial presence wait at
`crawler/wewe-rss.py:529-533`, which catches `TimeoutException` only), or a
returned `clicked` count together with the iteration trace. -/
inductive ClickAllResult where
  | raised
  | returned (clicked : Nat) (trace : List (Nat × ItemResult))
deriving Repr, DecidableEq

/-- `click_all_feed_items` (`crawler/wewe-rss.py:503-608`): the initial fetch
fixes `total`; a timeout there returns 0 with no iterations, a
`WebDriverException` there propagates, an empty listing returns 0, and
otherwise the loop runs over indices `0..total-1` via `runLoop`. -/
def click_all_feed_items (env : ClickEnv) (initial : ListingFetch) : ClickAllResult :=
  match initial with
  | ListingFetch.timeout => ClickAllResult.returned 0 []
  | ListingFetch.wdErr => ClickAllResult.raised
  | ListingFetch.elements es =>
    if es.length = 0 then ClickAllResult.returned 0 []
    else
      let tr := runLoop env 0 es.length
      ClickAllResult.returned (clickedCount tr) tr

/-- Environment for one call of `enter_auth_code`
(`crawler/wewe-rss.py:281-336`): locating the input field times out, some
interaction raises a `WebDriverException`, or the field is found and — after
`clear()` and `send_keys(code)` — reading `get_attribute("value")` yields
`readBack` (`none` for Python `None`). -/
inductive AuthEnv where
  | timeout
  | wdErr
  | found (readBack : Option String)
deriving Repr, DecidableEq

/-- What a call of `enter_auth_code` produces: a boolean return, or a
propagated `WebDriverException` (the `except WebDriverException: ... raise`
branch at lines 334-336). -/
inductive AuthResult where
  | ok
  | failed
  | raised
deriving Repr, DecidableEq

/-- `enter_auth_code`: a timeout locating the field returns `False`; a
`WebDriverException` propagates; otherwise
`real_value = input_element.get_attribute("value") or ""` is compared to the
submitted code by string equality, `True` on equality and `False` on
mismatch. -/
def enter_auth_code (env : AuthEnv) (auth_code : String) : AuthResult :=
  match env with
  | AuthEnv.timeout => AuthResult.failed
  | AuthEnv.wdErr => AuthResult.raised
  | AuthEnv.found readBack =>
    if readBack.getD "" = auth_code then AuthResult.ok else AuthResult.failed

/-- Outcome of one `make_trpc_request` cycle (`rss/wewe-rss.py:9-81`): a
response with its HTTP status code, a `requests` timeout, or another
`RequestException`; the latter two are caught and make the function return
`None`. -/
inductive TrpcOutcome where
  | response (status : Nat)
  | timeout
  | reqError
deriving Repr, DecidableEq

/-- The value `make_trpc_request` returns for a given outcome of the POST:
the response (its status code) or `None`. -/
def make_trpc_request (o : TrpcOutcome) : Option Nat :=
  match o with
  | TrpcOutcome.response s => some s
  | TrpcOutcome.timeout => none
  | TrpcOutcome.reqError => none

/-- The per-cycle summary printed by the `__main__` block of
`rss/wewe-rss.py:88-95`: whether the cycle reported completion, and whether it
noted an HTTP error status (`status_code >= 400`). -/
structure CycleSummary where
  completed : Bool
  httpErrorNoted : Bool
deriving Repr, DecidableEq

/-- Record of one cycle of the retry driver: the attempt number (0-based),
the outcome of its request, its summary, and the `time.sleep(10)` observed
after it. -/
structure CycleRec where
  attempt : Nat
  outcome : TrpcOutcome
  summary : CycleSummary
  delayAfter : Nat
deriving Repr, DecidableEq

/-- The body of one iteration of the `for i in range(4)` loop of
`rss/wewe-rss.py:84-97`: call `make_trpc_request`, print the summary
(completion plus an error note when the status is at least 400), then sleep
10 seconds.  No outcome breaks the loop. -/
def rssCycle (i : Nat) (o : TrpcOutcome) : CycleRec :=
  { attempt := i
    outcome := o
    summary :=
      match make_trpc_request o with
      | some s => { completed := true, httpErrorNoted := decide (400 ≤ s) }
      | none => { completed := false, httpErrorNoted := false }
    delayAfter := 10 }

/-- The `for i in range(4)` loop of the retry driver, written as the Python
loop runs it: `count` iterations remaining, current index `i`. -/
def rssLoop (env : Nat → TrpcOutcome) : Nat → Nat → List CycleRec
  | _, 0 => []
  | i, Nat.succ remaining => rssCycle i (env i) :: rssLoop env (i + 1) remaining

/-- The `__main__` block of `rss/wewe-rss.py`: four cycles starting at
attempt 0. -/
def rss_main (env : Nat → TrpcOutcome) : List CycleRec :=
  rssLoop env 0 4

/-- Externally visible events of `main` of `crawler/wewe-rss.py:611-673`, in
the order the code can produce them. -/
inductive MainEvent where
  | createDriver
  | navigate
  | setCookies
  | enterAuth
  | clickConfirm
  | readList
  | clickAll
  | waitInput
  | quitDriver
deriving Repr, DecidableEq

/-- The exceptions `main` handles: `WebDriverException` (caught at line 663)
and `KeyboardInterrupt` (caught at line 665, possible at any blocking
point). -/
inductive PyError where
  | webdriver
  | keyboardInterrupt
deriving Repr, DecidableEq

/-- Outcome the environment assigns to one step of the body of `main`: the
step returns a value, or it raises.  Steps whose Python callee catches
`WebDriverException` internally can still be interrupted by the operator, so
every step may raise. -/
inductive StepResult (α : Type) where
  | value (a : α)
  | raise (e : PyError)
deriving Repr, DecidableEq

/-- Environment for one run of `main`: whether `create_webdriver` succeeds
(it propagates `WebDriverException` on failure, before `driver` is assigned),
the outcome of each body step, and whether `driver.quit()` itself raises
(that exception is caught by the inner `try` of the `finally` block). -/
structure MainEnv where
  createOk : Bool
  navigateStep : StepResult Bool
  setCookiesStep : StepResult Bool
  enterAuthStep : StepResult Bool
  clickConfirmStep : StepResult Bool
  readListStep : StepResult (List FeedItem)
  clickAllStep : StepResult Nat
  waitInputStep : StepResult Unit
  quitOk : Bool

/-- The events of the `try` body of `main` after the driver was created
(`crawler/wewe-rss.py:623-661`): navigate; when it reports success, run
cookies, auth code, confirm, listing, per-item clicks and the final
`input()` in order.  Boolean results only influence logging, so execution
falls through them; a raised exception aborts the remaining steps (it is then
caught by `main`'s handlers). -/
def bodyEvents (env : MainEnv) : List MainEvent :=
  MainEvent.navigate ::
    match env.navigateStep with
    | StepResult.raise _ => []
    | StepResult.value false => []
    | StepResult.value true =>
      MainEvent.setCookies ::
        match env.setCookiesStep with
        | StepResult.raise _ => []
        | StepResult.value _ =>
          MainEvent.enterAuth ::
            match env.enterAuthStep with
            | StepResult.raise _ => []
            | StepResult.value _ =>
              MainEvent.clickConfirm ::
                match env.clickConfirmStep with
                | StepResult.raise _ => []
                | StepResult.value _ =>
                  MainEvent.readList ::
                    match env.readListStep with
                    | StepResult.raise _ => []
                    | StepResult.value _ =>
                      MainEvent.clickAll ::
                        match env.clickAllStep with
                        | StepResult.raise _ => []
                        | StepResult.value _ =>
                          MainEvent.waitInput ::
                            match env.waitInputStep with
                            | StepResult.raise _ => []
                            | StepResult.value _ => []

/-- `main` (`crawler/wewe-rss.py:611-673`): `driver` starts as `None`; if
`create_webdriver` raises, the `finally` block sees `driver` still `None` and
does not quit; otherwise the body runs (its `WebDriverException` and
`KeyboardInterrupt` are caught by the `except` clauses) and the `finally`
block calls `driver.quit()` exactly once, its own exceptions caught by the
inner `try`. -/
def crawler_main (env : MainEnv) : List MainEvent :=
  if env.createOk then
    MainEvent.createDriver :: (bodyEvents env ++ [MainEvent.quitDriver])
  else
    [MainEvent.createDriver]

/-- A rendered listing with the sentinel pseudo-entry first and two real
feeds, used to evaluate the embedded loop on concrete inputs. -/
def demoElems : List RawElement :=
  [{ titleSpanFound := true, titleText := some "全部", href := some "#", dataKey := some "all" },
   { titleSpanFound := true, titleText := some "feed-one", href := some "/f1", dataKey := some "k1" },
   { titleSpanFound := true, titleText := some "feed-two", href := some "/f2", dataKey := some "k2" }]

/-- A loop environment over `demoElems` in which every interaction succeeds. -/
def demoEnv : ClickEnv :=
  { refetch := fun _ => ListingFetch.elements demoElems
    attrExc := fun _ => false
    step := fun _ =>
      ClickStep.clicked
        { clickIdle := WaitResult.ok, waitBusy := WaitResult.ok, waitIdleAgain := WaitResult.ok } }

/-- A listing whose sentinel `"全部"` entry sits at index 2 instead of the
front. -/
def sentinelLateElems : List RawElement :=
  [{ titleSpanFound := true, titleText := some "feed-one", href := some "/f1", dataKey := some "k1" },
   { titleSpanFound := true, titleText := some "feed-two", href := some "/f2", dataKey := some "k2" },
   { titleSpanFound := true, titleText := some "全部", href := some "#", dataKey := some "all" }]

/-- A loop environment over `demoElems` in which the busy-state wait of the
update cycle of index 1 hits a `WebDriverException`, while every other
interaction succeeds. -/
def wdErrInUpdateEnv : ClickEnv :=
  { refetch := fun _ => ListingFetch.elements demoElems
    attrExc := fun _ => false
    step := fun i =>
      if i = 1 then
        ClickStep.clicked
          { clickIdle := WaitResult.ok, waitBusy := WaitResult.wdErr, waitIdleAgain := WaitResult.ok }
      else
        ClickStep.clicked
          { clickIdle := WaitResult.ok, waitBusy := WaitResult.ok, waitIdleAgain := WaitResult.ok } }

/-- A loop environment over `demoElems` in which clicking the entry at index 1
raises a `WebDriverException`, while every other interaction succeeds. -/
def wdErrInClickEnv : ClickEnv :=
  { refetch := fun _ => ListingFetch.elements demoElems
    attrExc := fun _ => false
    step := fun i =>
      if i = 1 then ClickStep.exc false
      else
        ClickStep.clicked
          { clickIdle := WaitResult.ok, waitBusy := WaitResult.ok, waitIdleAgain := WaitResult.ok } }

/-- A rendered entry whose nested title span cannot be located. -/
def badTitleElem : RawElement :=
  { titleSpanFound := false, titleText := none, href := some "/f9", dataKey := some "k9" }

/-- A `set_cookies_from_file` environment whose cookie file exists but holds a
single malformed pair, every browser interaction succeeding. -/
def emptyCookieEnv : SetCookieEnv :=
  { fileExists := true
    fileContent := "novalue"
    currentUrl := { full := "http://example.com:4000/dash", scheme := "http", netloc := "example.com:4000" }
    domainArg := none
    baseLoadOk := true
    addCookieOk := fun _ => true
    backLoadOk := true }

/-- A `set_cookies_from_file` environment with one well-formed cookie and a
ported netloc, every browser interaction succeeding. -/
def portedDomainEnv : SetCookieEnv :=
  { fileExists := true
    fileContent := "a=1"
    currentUrl := { full := "http://example.com:4000/dash", scheme := "http", netloc := "example.com:4000" }
    domainArg := none
    baseLoadOk := true
    addCookieOk := fun _ => true
    backLoadOk := true }

/-- The demo environment with a click step that would raise a
`WebDriverException` at every index. -/
def demoEnvExcStep : ClickEnv :=
  { refetch := demoEnv.refetch
    attrExc := demoEnv.attrExc
    step := fun _ => ClickStep.exc false }

/-- An environment over the late-sentinel listing whose interactions all
succeed. -/
def lateSentinelEnv : ClickEnv :=
  { refetch := fun _ => ListingFetch.elements sentinelLateElems
    attrExc := fun _ => false
    step := demoEnv.step }

/-- An environment over the late-sentinel listing with a click step that
would raise a `WebDriverException` at every index. -/
def lateSentinelEnvExcStep : ClickEnv :=
  { refetch := fun _ => ListingFetch.elements sentinelLateElems
    attrExc := fun _ => false
    step := fun _ => ClickStep.exc false }

/-- Unfolding lemma for one iteration of `runLoop`. -/
theorem runLoop_succ (env : ClickEnv) (i n : Nat) :
    runLoop env i (n + 1) =
      if stepAt env i = ItemResult.haltedShrink then [(i, stepAt env i)]
      else (i, stepAt env i) :: runLoop env (i + 1) n := rfl

/-- The loop runs at most `n` iterations. -/
theorem runLoop_length_le (env : ClickEnv) : ∀ n i, (runLoop env i n).length ≤ n := by
  intro n
  induction n with
  | zero => intro i; simp [runLoop]
  | succ m ih =>
    intro i
    rw [runLoop_succ]
    by_cases h : stepAt env i = ItemResult.haltedShrink
    · simp [h]
    · simp only [h, if_false, List.length_cons]
      have := ih (i + 1)
      omega

/-- Every recorded result is the result `stepAt` computes for its index. -/
theorem runLoop_mem_stepAt (env : ClickEnv) :
    ∀ n i j r, (j, r) ∈ runLoop env i n → r = stepAt env j := by
  intro n
  induction n with
  | zero => intro i j r h; simp [runLoop] at h
  | succ m ih =>
    intro i j r h
    rw [runLoop_succ] at h
    by_cases hs : stepAt env i = ItemResult.haltedShrink
    · simp [hs] at h
      rw [h.1, h.2, hs]
    · simp only [hs, if_false, List.mem_cons] at h
      rcases h with h | h
      · rw [(Prod.mk.injEq _ _ _ _).mp h |>.2, (Prod.mk.injEq _ _ _ _).mp h |>.1]
      · exact ih (i + 1) j r h

/-- The indices the loop visits are consecutive, starting at the loop's
starting index. -/
theorem runLoop_map_fst (env : ClickEnv) :
    ∀ n i, (runLoop env i n).map Prod.fst = List.range' i (runLoop env i n).length := by
  intro n
  induction n with
  | zero => intro i; simp [runLoop]
  | succ m ih =>
    intro i
    rw [runLoop_succ]
    by_cases h : stepAt env i = ItemResult.haltedShrink
    · simp [h]
    · simp only [h, if_false, List.map_cons, List.length_cons, List.range'_succ]
      rw [ih (i + 1)]

/-- When no iteration breaks out, the loop runs all `n` iterations. -/
theorem runLoop_length_of_no_halt (env : ClickEnv) :
    ∀ n i, (∀ p ∈ runLoop env i n, p.2 ≠ ItemResult.haltedShrink) →
      (runLoop env i n).length = n := by
  intro n
  induction n with
  | zero => intro i _; simp [runLoop]
  | succ m ih =>
    intro i hno
    rw [runLoop_succ]
    by_cases h : stepAt env i = ItemResult.haltedShrink
    · exact absurd h (by
        have := hno (i, stepAt env i) (by rw [runLoop_succ]; simp [h])
        simpa using this)
    · simp only [h, if_false, List.length_cons]
      rw [ih (i + 1)]
      intro p hp
      exact hno p (by rw [runLoop_succ]; simp [h, hp])

/-- A `break` is final: the iteration that breaks is the last recorded one. -/
theorem runLoop_halt_last (env : ClickEnv) :
    ∀ n i j, (j, ItemResult.haltedShrink) ∈ runLoop env i n →
      i ≤ j ∧ (runLoop env i n).length + i = j + 1 := by
  intro n
  induction n with
  | zero => intro i j h; simp [runLoop] at h
  | succ m ih =>
    intro i j h
    rw [runLoop_succ] at h ⊢
    by_cases hs : stepAt env i = ItemResult.haltedShrink
    · simp [hs] at h ⊢
      omega
    · simp only [hs, if_false, List.mem_cons] at h
      rcases h with h | h
      · exact absurd ((Prod.mk.injEq _ _ _ _).mp h |>.2.symm) hs
      · have := ih (i + 1) j h
        simp only [hs, if_false, List.length_cons]
        omega

/-- When the loop has at least one iteration to run, its first iteration is
recorded. -/
theorem runLoop_head_mem (env : ClickEnv) (n i : Nat) (h : 0 < n) :
    (i, stepAt env i) ∈ runLoop env i n := by
  obtain ⟨m, rfl⟩ : ∃ m, n = m + 1 := ⟨n - 1, by omega⟩
  rw [runLoop_succ]
  by_cases hs : stepAt env i = ItemResult.haltedShrink
  · simp [hs]
  · simp [hs]

/-- Unless an iteration breaks out, the loop goes on to the next index (when
one is left in the range). -/
theorem runLoop_next_mem (env : ClickEnv) :
    ∀ n i j r, (j, r) ∈ runLoop env i n → r ≠ ItemResult.haltedShrink →
      j + 1 < i + n → ∃ s, (j + 1, s) ∈ runLoop env i n := by
  intro n
  induction n with
  | zero => intro i j r h; simp [runLoop] at h
  | succ m ih =>
    intro i j r hmem hr hlt
    rw [runLoop_succ] at hmem ⊢
    by_cases hs : stepAt env i = ItemResult.haltedShrink
    · simp [hs] at hmem
      exact absurd hmem.2 hr
    · simp only [hs, if_false, List.mem_cons] at hmem
      rcases hmem with hmem | hmem
      · have hj : j = i := ((Prod.mk.injEq _ _ _ _).mp hmem).1
        subst hj
        have hm : 0 < m := by omega
        exact ⟨stepAt env (j + 1), by
          simp only [hs, if_false, List.mem_cons]
          exact Or.inr (runLoop_head_mem env m (j + 1) hm)⟩
      · obtain ⟨s, hs'⟩ := ih (i + 1) j r hmem hr (by omega)
        exact ⟨s, by simp only [hs, if_false, List.mem_cons]; exact Or.inr hs'⟩

/-- Counting two disjoint kinds of iteration results never exceeds the number
of iterations. -/
theorem filter_disjoint_length_le {α : Type} (p q : α → Bool)
    (hpq : ∀ x, ¬(p x = true ∧ q x = true)) :
    ∀ l : List α, (l.filter p).length + (l.filter q).length ≤ l.length := by
  intro l
  induction l with
  | nil => simp
  | cons x xs ih =>
    by_cases hp : p x = true
    · have hq : q x = false := by
        rcases Bool.eq_false_or_eq_true (q x) with h | h
        · exact absurd ⟨hp, h⟩ (hpq x)
        · exact h
      simp only [List.filter_cons, hp, hq, if_true, if_false, Bool.false_eq_true,
        List.length_cons]
      omega
    · have hp' : p x = false := Bool.eq_false_iff.mpr hp
      by_cases hq : q x = true
      · simp only [List.filter_cons, hp', hq, if_true, if_false, Bool.false_eq_true,
          List.length_cons]
        omega
      · have hq' : q x = false := Bool.eq_false_iff.mpr hq
        simp only [List.filter_cons, hp', hq', if_false, Bool.false_eq_true,
          List.length_cons]
        omega

/-- Claim C5: `load_cookies_from_file` splits on `';'`, trims each pair and
each key and value, skips pairs without `'='`, and splits remaining pairs on
the first `'='` only; `"a=1; b=2;c = 3"` parses to exactly `(a,1)`, `(b,2)`,
`(c,3)` in order and `"novalue;a=1"` parses to exactly `(a,1)`. -/
theorem cookie_parsing_c5 :
    load_cookies_from_file "a=1; b=2;c = 3" = [("a", "1"), ("b", "2"), ("c", "3")]
    ∧ load_cookies_from_file "novalue;a=1" = [("a", "1")]
    ∧ (∀ raw : List Char, (trimChars raw).contains '=' = false → pairToCookie raw = none)
    ∧ load_cookies_from_file "k=v=w" = [("k", "v=w")] := by
  refine ⟨by decide, by decide, ?_, by decide⟩
  intro raw h
  simp [pairToCookie, h]
  intro _
  simpa using h

/-- Witness for C5: the concrete parses, and the malformed pair `"novalue"`
is skipped by the per-pair parser. -/
theorem cookie_parsing_c5_witness :
    load_cookies_from_file "a=1; b=2;c = 3" = [("a", "1"), ("b", "2"), ("c", "3")]
    ∧ pairToCookie "novalue".data = none :=
  ⟨cookie_parsing_c5.1, cookie_parsing_c5.2.2.1 "novalue".data (by decide)⟩

/-- Claim C6: a cookie domain containing `':'` is cut at the first `':'`, so
`"example.com:4000"` becomes `"example.com"`, and every `add_cookie` attempt
of `set_cookies_from_file` carries exactly that normalized domain. -/
theorem cookie_domain_normalization_c6 :
    normalizeDomain "example.com:4000" = "example.com"
    ∧ (∀ d : String, d.data.contains ':' = true →
        normalizeDomain d = String.mk ((splitOnChar ':' d.data).headD []))
    ∧ (∀ (env : SetCookieEnv) (n v dom p : String),
        CookieAction.addCookie n v dom p ∈ (set_cookies_from_file env).2 →
        dom = appliedDomain env) := by
  refine ⟨by decide, ?_, ?_⟩
  · intro d h
    unfold normalizeDomain
    rw [if_pos h]
  · intro env n v dom p hmem
    unfold set_cookies_from_file at hmem
    rcases hfe : env.fileExists with _ | _
    · simp [hfe] at hmem
    · rcases hlist : (load_cookies_from_file env.fileContent).isEmpty with _ | _
      · rcases hbase : env.baseLoadOk with _ | _
        · simp [hfe, hlist, hbase] at hmem
        · rcases hback : env.backLoadOk with _ | _ <;>
          · simp only [hfe, hlist, hback, hbase, Bool.not_true, Bool.not_false,
              Bool.false_eq_true, if_false, if_true] at hmem
            rcases List.mem_cons.mp hmem with h | hmem2
            · exact CookieAction.noConfusion h
            · rcases List.mem_append.mp hmem2 with h | h
              · obtain ⟨kv, _, hkv⟩ := List.mem_map.mp h
                injection hkv with h1 h2 h3 h4
                exact h3.symm
              · exact CookieAction.noConfusion (List.mem_singleton.mp h)
      · simp [hfe, hlist] at hmem

/-- Witness for C6: on a concrete run whose current URL carries a port, the
applied domain of the recorded `add_cookie` attempt is the port-stripped
domain. -/
theorem cookie_domain_normalization_c6_witness :
    normalizeDomain "example.com:4000" =
      String.mk ((splitOnChar ':' "example.com:4000".data).headD [])
    ∧ "example.com" = appliedDomain portedDomainEnv :=
  ⟨cookie_domain_normalization_c6.2.1 "example.com:4000" (by decide),
   cookie_domain_normalization_c6.2.2 portedDomainEnv "a" "1" "example.com" "/" (by decide)⟩

/-- Claim C10: when the cookie file exists but parses to zero cookies,
`set_cookies_from_file` returns `False` although the per-cookie failure count
is zero, and performs no navigation and no `add_cookie` attempt. -/
theorem zero_cookies_returns_false_c10 (env : SetCookieEnv)
    (hex : env.fileExists = true)
    (hempty : load_cookies_from_file env.fileContent = []) :
    set_cookies_from_file env = (false, []) ∧ failedCookieCount env = 0 := by
  constructor
  · unfold set_cookies_from_file
    simp [hex, hempty]
  · unfold failedCookieCount
    rw [hempty]
    rfl

/-- Witness for C10: a cookie file holding only the malformed pair
`"novalue"` parses to zero cookies; the call returns `False` with an empty
action trace and a zero failure count. -/
theorem zero_cookies_returns_false_c10_witness :
    set_cookies_from_file emptyCookieEnv = (false, []) ∧ failedCookieCount emptyCookieEnv = 0 :=
  zero_cookies_returns_false_c10 emptyCookieEnv rfl (by decide)

/-- Claim C7: `enter_auth_code` succeeds exactly when the value read back
from the field equals the submitted code; a mismatch and a timeout both
return a reported failure, and only a `WebDriverException` raises. -/
theorem auth_code_verification_c7 (code : String) :
    (∀ readBack : Option String,
      enter_auth_code (AuthEnv.found readBack) code = AuthResult.ok ↔ readBack.getD "" = code)
    ∧ enter_auth_code AuthEnv.timeout code = AuthResult.failed
    ∧ enter_auth_code AuthEnv.wdErr code = AuthResult.raised
    ∧ (∀ env : AuthEnv, enter_auth_code env code = AuthResult.raised → env = AuthEnv.wdErr) := by
  refine ⟨?_, rfl, rfl, ?_⟩
  · intro readBack
    unfold enter_auth_code
    constructor
    · intro h
      by_contra hne
      simp [hne] at h
    · intro h
      simp [h]
  · intro env h
    cases env with
    | timeout => exact absurd h (by simp [enter_auth_code])
    | wdErr => rfl
    | found readBack =>
      unfold enter_auth_code at h
      by_cases heq : readBack.getD "" = code
      · simp [heq] at h
      · simp [heq] at h

/-- Witness for C7: the code `"123567"` read back verbatim verifies, and a
raised outcome pins the environment to the transport-error case. -/
theorem auth_code_verification_c7_witness :
    enter_auth_code (AuthEnv.found (some "123567")) "123567" = AuthResult.ok
    ∧ AuthEnv.wdErr = AuthEnv.wdErr :=
  ⟨((auth_code_verification_c7 "123567").1 (some "123567")).mpr (by decide),
   (auth_code_verification_c7 "123567").2.2.2 AuthEnv.wdErr (by decide)⟩

/-- Claim C8: the retry driver of `rss/wewe-rss.py` runs exactly 4 cycles in
order, with a 10-second delay after each, regardless of the outcome of each
cycle's request. -/
theorem retry_driver_four_cycles_c8 (env : Nat → TrpcOutcome) :
    (rss_main env).length = 4
    ∧ (rss_main env).map CycleRec.attempt = [0, 1, 2, 3]
    ∧ (rss_main env).map CycleRec.delayAfter = [10, 10, 10, 10] :=
  ⟨rfl, rfl, rfl⟩

/-- The body of `main` never releases the session itself: `driver.quit()`
appears only in the `finally` block. -/
theorem bodyEvents_no_quit (env : MainEnv) :
    (bodyEvents env).count MainEvent.quitDriver = 0 := by
  obtain ⟨cOk, nav, sc, ea, cc, rl, ca, wi, qOk⟩ := env
  simp only [bodyEvents]
  rcases nav with bn | en
  · cases bn
    · rfl
    · rcases sc with bs | es
      · rcases ea with be | ee
        · rcases cc with bc | ec
          · rcases rl with br | er
            · rcases ca with ba | ea2
              · rcases wi with bw | ew
                · rfl
                · rfl
              · rfl
            · rfl
          · rfl
        · rfl
      · rfl
  · rfl

/-- Claim C9: on every exit path of `main` in which the WebDriver was created
— normal completion, a propagated WebDriver error at any step, or a user
interrupt at any step — `driver.quit()` is invoked exactly once, and when
creation itself failed it is never invoked. -/
theorem session_released_once_c9 (env : MainEnv) :
    (crawler_main env).count MainEvent.quitDriver = if env.createOk then 1 else 0 := by
  unfold crawler_main
  by_cases h : env.createOk
  · simp only [h, if_true, List.count_cons, List.count_append]
    rw [bodyEvents_no_quit env]
    simp
  · simp only [h, if_false]
    rfl

/-- Claim C1: for a nonempty initial listing of length N, the per-item loop
of `click_all_feed_items` attempts consecutive indices starting at 0, at most
N of them and exactly N when no re-fetched listing shrinks to or below the
next index; a shrink is the last attempted iteration (the loop halts there
immediately); and index 0 is skipped whenever its re-fetch yields a listing
that still covers it. -/
theorem click_all_visits_indices_in_order_c1 (env : ClickEnv) (es : List RawElement)
    (hne : 0 < es.length) :
    ∃ tr : List (Nat × ItemResult),
      click_all_feed_items env (ListingFetch.elements es) =
        ClickAllResult.returned (clickedCount tr) tr
      ∧ tr.map Prod.fst = List.range tr.length
      ∧ tr.length ≤ es.length
      ∧ ((∀ p ∈ tr, p.2 ≠ ItemResult.haltedShrink) → tr.length = es.length)
      ∧ (∀ j, (j, ItemResult.haltedShrink) ∈ tr → tr.length = j + 1)
      ∧ (∀ items, env.refetch 0 = ListingFetch.elements items → 0 < items.length →
          env.attrExc 0 = false → (0, ItemResult.skipped) ∈ tr) := by
  refine ⟨runLoop env 0 es.length, ?_, ?_, ?_, ?_, ?_, ?_⟩
  · have hz : es.length ≠ 0 := by omega
    simp [click_all_feed_items, hz]
  · rw [runLoop_map_fst, List.range_eq_range']
  · exact runLoop_length_le env es.length 0
  · exact runLoop_length_of_no_halt env es.length 0
  · intro j hj
    have h := runLoop_halt_last env es.length 0 j hj
    omega
  · intro items hf hlen hattr
    have hne' : ¬ items.length ≤ 0 := by omega
    have h0 : stepAt env 0 = ItemResult.skipped := by
      simp [stepAt, hf, hne', hattr]
    have hm := runLoop_head_mem env es.length 0 hne
    rwa [h0] at hm

/-- Witness for C1: the loop over the three-entry demo listing. -/
theorem click_all_visits_indices_in_order_c1_witness :
    ∃ tr : List (Nat × ItemResult),
      click_all_feed_items demoEnv (ListingFetch.elements demoElems) =
        ClickAllResult.returned (clickedCount tr) tr
      ∧ tr.map Prod.fst = List.range tr.length
      ∧ tr.length ≤ demoElems.length
      ∧ ((∀ p ∈ tr, p.2 ≠ ItemResult.haltedShrink) → tr.length = demoElems.length)
      ∧ (∀ j, (j, ItemResult.haltedShrink) ∈ tr → tr.length = j + 1)
      ∧ (∀ items, demoEnv.refetch 0 = ListingFetch.elements items → 0 < items.length →
          demoEnv.attrExc 0 = false → (0, ItemResult.skipped) ∈ tr) :=
  click_all_visits_indices_in_order_c1 demoEnv demoElems (by decide)

/-- Claim C2: an entry at index 0, or whose extracted title is the sentinel
`"全部"`, is skipped before any selection or click is attempted — the
iteration's result is `skipped` for every possible click environment — and
skipped iterations are never counted in the returned success count. -/
theorem sentinel_and_index_zero_skipped_c2 :
    (∀ (fetch : Nat → ListingFetch) (attr : Nat → Bool) (stepA stepB : Nat → ClickStep)
        (index : Nat) (items : List RawElement) (h : index < items.length),
        fetch index = ListingFetch.elements items →
        attr index = false →
        (index = 0 ∨ itemTitle items[index] = "全部") →
        stepAt { refetch := fetch, attrExc := attr, step := stepA } index = ItemResult.skipped
        ∧ stepAt { refetch := fetch, attrExc := attr, step := stepB } index = ItemResult.skipped)
    ∧ (∀ tr : List (Nat × ItemResult),
        clickedCount tr + (tr.filter (fun p => p.2 = ItemResult.skipped)).length ≤ tr.length)
    ∧ (∀ (env : ClickEnv) (initial : ListingFetch) (c : Nat) (tr : List (Nat × ItemResult)),
        click_all_feed_items env initial = ClickAllResult.returned c tr →
        c = clickedCount tr) := by
  refine ⟨?_, ?_, ?_⟩
  · intro fetch attr stepA stepB index items h hfetch hattr hg
    have hne' : ¬ items.length ≤ index := by omega
    have key : ∀ stepF : Nat → ClickStep,
        stepAt { refetch := fetch, attrExc := attr, step := stepF } index =
          ItemResult.skipped := by
      intro stepF
      rcases hg with hg | hg
      · subst hg
        have hnil : items ≠ [] := List.length_pos.mp h
        simp [stepAt, hfetch, hattr, hnil]
      · simp [stepAt, hfetch, hne', hattr, hg]
    exact ⟨key stepA, key stepB⟩
  · intro tr
    unfold clickedCount
    refine filter_disjoint_length_le _ _ ?_ tr
    intro x hx
    rcases hx with ⟨h1, h2⟩
    rw [decide_eq_true_eq] at h1 h2
    rw [h1] at h2
    exact ItemResult.noConfusion h2
  · intro env initial c tr hret
    cases initial with
    | timeout =>
      simp only [click_all_feed_items] at hret
      injection hret with h1 h2
      subst h1
      subst h2
      rfl
    | wdErr =>
      simp only [click_all_feed_items] at hret
      exact ClickAllResult.noConfusion hret
    | elements es =>
      simp only [click_all_feed_items] at hret
      by_cases hz : es.length = 0
      · rw [if_pos hz] at hret
        injection hret with h1 h2
        subst h1
        subst h2
        rfl
      · rw [if_neg hz] at hret
        injection hret with h1 h2
        subst h2
        exact h1.symm

/-- Witness for C2: index 0 of the demo listing and the late sentinel at
index 2 are both skipped, whatever the click environment would do. -/
theorem sentinel_and_index_zero_skipped_c2_witness :
    (stepAt demoEnv 0 = ItemResult.skipped
      ∧ stepAt demoEnvExcStep 0 = ItemResult.skipped)
    ∧ (stepAt lateSentinelEnv 2 = ItemResult.skipped
      ∧ stepAt lateSentinelEnvExcStep 2 = ItemResult.skipped) :=
  ⟨sentinel_and_index_zero_skipped_c2.1 demoEnv.refetch demoEnv.attrExc demoEnv.step
      (fun _ => ClickStep.exc false) 0 demoElems (by decide) rfl rfl (Or.inl rfl),
   sentinel_and_index_zero_skipped_c2.1 (fun _ => ListingFetch.elements sentinelLateElems)
      (fun _ => false) demoEnv.step (fun _ => ClickStep.exc false) 2 sentinelLateElems
      (by decide) rfl rfl (Or.inr (by decide))⟩

/-- When every entry's title span is present, the listing loop of
`read_left_feed_list` returns all parsed items in order. -/
theorem readElementsLoop_all_found : ∀ (es : List RawElement) (acc : List FeedItem),
    (∀ e ∈ es, e.titleSpanFound = true) →
    readElementsLoop es acc = ListResult.items (acc.reverse ++ es.map mkFeedItem) := by
  intro es
  induction es with
  | nil => intro acc _; simp [readElementsLoop]
  | cons e es ih =>
    intro acc h
    have he : e.titleSpanFound = true := h e (by simp)
    simp only [readElementsLoop, he, if_true]
    rw [ih (mkFeedItem e :: acc) (fun x hx => h x (by simp [hx]))]
    simp

/-- As soon as one entry's title span is missing, the listing loop of
`read_left_feed_list` ends in a propagated exception. -/
theorem readElementsLoop_missing : ∀ (es : List RawElement) (acc : List FeedItem),
    (∃ e ∈ es, e.titleSpanFound = false) →
    readElementsLoop es acc = ListResult.raised := by
  intro es
  induction es with
  | nil => intro acc h; simp at h
  | cons e es ih =>
    intro acc h
    by_cases he : e.titleSpanFound = true
    · simp only [readElementsLoop, he, if_true]
      apply ih
      rcases h with ⟨x, hx, hfx⟩
      rcases List.mem_cons.mp hx with rfl | hx'
      · rw [he] at hfx
        exact Bool.noConfusion hfx
      · exact ⟨x, hx', hfx⟩
    · have he' : e.titleSpanFound = false := Bool.eq_false_iff.mpr he
      simp [readElementsLoop, he']

/-- Counterexample to claim C3: a listing whose first entry has no locatable
title label makes `read_left_feed_list` raise; it does not return the listing
with an empty title for that entry and the remaining entry parsed. -/
theorem missing_title_aborts_listing_c3_cex :
    read_left_feed_list (ListingFetch.elements
        [badTitleElem,
         { titleSpanFound := true, titleText := some "feed-one", href := some "/f1", dataKey := some "k1" }]) =
      ListResult.raised
    ∧ read_left_feed_list (ListingFetch.elements
        [badTitleElem,
         { titleSpanFound := true, titleText := some "feed-one", href := some "/f1", dataKey := some "k1" }]) ≠
      ListResult.items
        [{ title := "", href := "/f9", data_key := "k9" },
         { title := "feed-one", href := "/f1", data_key := "k1" }] :=
  ⟨by decide, by decide⟩

/-- Claim C3 amended: in `read_left_feed_list`, an entry whose nested title
label cannot be located raises a `WebDriverException` that aborts and
propagates out of the whole listing (no partial listing is returned); only
when every entry's title label is present does the listing complete, with
every entry parsed. -/
theorem missing_title_raises_c3 (es : List RawElement) :
    ((∃ e ∈ es, e.titleSpanFound = false) →
      read_left_feed_list (ListingFetch.elements es) = ListResult.raised)
    ∧ ((∀ e ∈ es, e.titleSpanFound = true) →
      read_left_feed_list (ListingFetch.elements es) = ListResult.items (es.map mkFeedItem)) := by
  constructor
  · intro h
    simp only [read_left_feed_list]
    exact readElementsLoop_missing es [] h
  · intro h
    simp only [read_left_feed_list]
    rw [readElementsLoop_all_found es [] h]
    simp

/-- Witness for C3 amended: the one-bad-entry listing raises; the demo
listing parses completely. -/
theorem missing_title_raises_c3_witness :
    read_left_feed_list (ListingFetch.elements [badTitleElem]) = ListResult.raised
    ∧ read_left_feed_list (ListingFetch.elements demoElems) =
        ListResult.items (demoElems.map mkFeedItem) :=
  ⟨(missing_title_raises_c3 [badTitleElem]).1 (by decide),
   (missing_title_raises_c3 demoElems).2 (by decide)⟩

/-- Counterexample to claim C4: a `WebDriverException` during the per-item
update does not propagate out of `click_all_feed_items` and does not
terminate the run — with the error in the busy wait of index 1's update
cycle, and likewise with the error in index 1's own click, the function still
returns, and index 2 is attempted and succeeds. -/
theorem wd_error_continues_c4_cex :
    click_all_feed_items wdErrInUpdateEnv (ListingFetch.elements demoElems) =
      ClickAllResult.returned 1
        [(0, ItemResult.skipped), (1, ItemResult.updateFailed), (2, ItemResult.succeeded)]
    ∧ click_all_feed_items wdErrInClickEnv (ListingFetch.elements demoElems) =
      ClickAllResult.returned 1
        [(0, ItemResult.skipped), (1, ItemResult.webdriverExc), (2, ItemResult.succeeded)] :=
  ⟨by decide, by decide⟩

/-- Claim C4 amended: during the per-item update of one entry, a timeout of
either wait is reported as a non-successful outcome (and so is a
`WebDriverException`: `click_update_link_and_wait` catches both and returns
`False`), and in both cases the iteration continues to the next index — a
`WebDriverException` during the per-item update is caught by the loop and
does not propagate out of the per-item updater. -/
theorem update_errors_reported_loop_continues_c4 :
    (∀ u : UpdateEnv,
      u.clickIdle ≠ WaitResult.ok ∨ u.waitBusy ≠ WaitResult.ok ∨ u.waitIdleAgain ≠ WaitResult.ok →
      click_update_link_and_wait u = false)
    ∧ (∀ (env : ClickEnv) (n j : Nat) (r : ItemResult),
        (j, r) ∈ runLoop env 0 n → r ≠ ItemResult.haltedShrink → j + 1 < n →
        ∃ s, (j + 1, s) ∈ runLoop env 0 n) := by
  constructor
  · intro u h
    rcases u with ⟨c, b, i⟩
    cases c <;> cases b <;> cases i <;>
      first
        | rfl
        | (rcases h with h | h | h <;> exact absurd rfl h)
  · intro env n j r hmem hr hlt
    exact runLoop_next_mem env n 0 j r hmem hr (by omega)

/-- Witness for C4 amended: a busy-wait timeout and a busy-wait
`WebDriverException` both yield `False`, and after index 1's failed update in
the demo run, index 2 is still attempted. -/
theorem update_errors_reported_loop_continues_c4_witness :
    click_update_link_and_wait
        { clickIdle := WaitResult.ok, waitBusy := WaitResult.timeout,
          waitIdleAgain := WaitResult.ok } = false
    ∧ click_update_link_and_wait
        { clickIdle := WaitResult.ok, waitBusy := WaitResult.wdErr,
          waitIdleAgain := WaitResult.ok } = false
    ∧ ∃ s, (2, s) ∈ runLoop wdErrInUpdateEnv 0 3 :=
  ⟨update_errors_reported_loop_continues_c4.1 _ (Or.inr (Or.inl (by decide))),
   update_errors_reported_loop_continues_c4.1 _ (Or.inr (Or.inl (by decide))),
   update_errors_reported_loop_continues_c4.2 wdErrInUpdateEnv 3 1 ItemResult.updateFailed
     (by decide) (by decide) (by decide)⟩

end AutoScripts
